import Mathlib

/-!
Shallow embedding of the signac-flow workflow script
`hfcs-fffit/runs/r125-vle-iter1/project.py` and proofs about its
operations, labels and pre/post-condition structure.

Numeric state-point and document-store values are modelled over `ℚ`
(exact) or `ℝ` (where a real cube root appears); Python exceptions are
modelled with `Option`/`Except`; files on disk are modelled as optional
lists of tokenised lines, `none` standing for an absent or unreadable
file.
-/

namespace R125Vle

/-! ### Move-probability state (`mosdef_cassandra.Moves`)

The external `mc.Moves` object carries one probability per move class.
The script touches `prob_volume`, `prob_swap` and `prob_translate`;
every other move class is untouched and its combined mass is modelled
by the single field `prob_other`. -/

structure Moves where
  prob_translate : ℚ
  prob_volume : ℚ
  prob_swap : ℚ
  prob_other : ℚ

/-- Total move-probability mass of a `Moves` object. -/
def Moves.total (m : Moves) : ℚ :=
  m.prob_translate + m.prob_volume + m.prob_swap + m.prob_other

/-- The `equilibrate_liqbox` rebalancing (project.py lines 112-119):
`new_prob_volume = 1.0 / job.sp.N_liq`, and the displaced mass
`orig_prob_volume - new_prob_volume` is added to `prob_translate`. -/
def rebalance_npt (m : Moves) (N_liq : ℕ) : Moves :=
  let orig_prob_volume := m.prob_volume
  let new_prob_volume : ℚ := 1.0 / (N_liq : ℚ)
  { m with
    prob_volume := new_prob_volume
    prob_translate := m.prob_translate + orig_prob_volume - new_prob_volume }

/-- The `run_gemc` rebalancing (project.py lines 266-279):
`new_prob_volume = 1.0 / (N_liq + N_vap)`,
`new_prob_swap = 4.0 / 0.05 / (N_liq + N_vap)`, and both displaced
masses are added to `prob_translate` in two successive updates. -/
def rebalance_gemc (m : Moves) (N_liq N_vap : ℕ) : Moves :=
  let orig_prob_volume := m.prob_volume
  let orig_prob_swap := m.prob_swap
  let new_prob_volume : ℚ := 1.0 / ((N_liq : ℚ) + (N_vap : ℚ))
  let new_prob_swap : ℚ := 4.0 / 0.05 / ((N_liq : ℚ) + (N_vap : ℚ))
  let m1 := { m with prob_volume := new_prob_volume, prob_swap := new_prob_swap }
  let m2 := { m1 with
    prob_translate := m1.prob_translate + orig_prob_volume - new_prob_volume }
  { m2 with
    prob_translate := m2.prob_translate + orig_prob_swap - new_prob_swap }

/-! ### Working-directory creation (`equilibrate_liqbox`, lines 144-151)

`os.mkdir` either succeeds or raises `OSError` with some `errno`; the
script swallows `errno.EEXIST` and re-raises anything else. -/

inductive MkdirOutcome where
  | success
  | failure (errno : ℕ)
  deriving DecidableEq

/-- The value of `errno.EEXIST` on POSIX systems. -/
def EEXIST : ℕ := 17

/-- The `try: os.mkdir(liq_dir) except OSError` handler of
`equilibrate_liqbox`: `EEXIST` is swallowed, any other errno is
re-raised (modelled as `Except.error`). -/
def handle_mkdir : MkdirOutcome → Except ℕ Unit
  | .success => .ok ()
  | .failure e => if e = EEXIST then .ok () else .error e

/-! ### Force-field generation (`_generate_r125_xml`, lines 424-470)

The `<NonbondedForce>` block of the generated XML: five atom-type
entries whose charges are fixed literals and whose sigma/epsilon are
substituted from the job's state point. -/

structure JobFFParams where
  sigma_C1 : ℚ
  sigma_C2 : ℚ
  sigma_F1 : ℚ
  sigma_F2 : ℚ
  sigma_H1 : ℚ
  epsilon_C1 : ℚ
  epsilon_C2 : ℚ
  epsilon_F1 : ℚ
  epsilon_F2 : ℚ
  epsilon_H1 : ℚ

structure NonbondedAtom where
  atomType : String
  charge : ℚ
  sigma : ℚ
  epsilon : ℚ

/-- The five `<Atom .../>` entries of the generated `<NonbondedForce>`
section, in file order, with the literal charges of project.py lines
450-454. -/
def generate_r125_nonbonded (p : JobFFParams) : List NonbondedAtom :=
  [⟨"C1", 0.224067, p.sigma_C1, p.epsilon_C1⟩,
   ⟨"C2", 0.500886, p.sigma_C2, p.epsilon_C2⟩,
   ⟨"F1", -0.167131, p.sigma_F1, p.epsilon_F1⟩,
   ⟨"F2", -0.170758, p.sigma_F2, p.epsilon_F2⟩,
   ⟨"H1", 0.121583, p.sigma_H1, p.epsilon_H1⟩]

/-- Per-molecule multiplicity of each atom type in R-125
(`C(F)(F)C(F)(F)F`, i.e. CHF₂-CF₃): one C1, one C2, two F1, three F2,
one H1. -/
def r125_multiplicities : List ℕ := [1, 1, 2, 3, 1]

/-- Net charge of one R-125 molecule under the generated force field:
each atom type's charge times its per-molecule multiplicity. -/
def moleculeCharge (p : JobFFParams) : ℚ :=
  (List.zip (generate_r125_nonbonded p) r125_multiplicities).foldl
    (fun acc e => acc + e.1.charge * (e.2 : ℚ)) 0

/-! ### `calculate_props` postcondition keys (lines 333-346)

The operation is decorated with twelve `@Project.post` lambdas, each
of the form `lambda job: "<key>" in job.doc`. -/

/-- The document keys checked by the `@Project.post` decorators on
`calculate_props`, in decorator order (project.py lines 335-346). -/
def calculate_props_post_keys : List String :=
  ["liq_density", "vap_density", "Pvap", "liq_enthalpy", "vap_enthalpy",
   "nmols_liq", "nmols_vap",
   "liq_density_unc", "vap_density_unc", "Pvap_unc",
   "liq_enthalpy_unc", "vap_enthalpy_unc"]

/-- The fourteen derived keys that `calculate_props` writes to the
document store: seven means (lines 385-391) and seven `_unc` keys
(line 417, one per entry of `Props`). -/
def derived_prop_keys : List String :=
  ["liq_density", "vap_density", "Pvap", "liq_enthalpy", "vap_enthalpy",
   "nmols_liq", "nmols_vap",
   "liq_density_unc", "vap_density_unc", "Pvap_unc",
   "liq_enthalpy_unc", "vap_enthalpy_unc",
   "nmols_liq_unc", "nmols_vap_unc"]

/-- Conjunction of the declared `@Project.post` predicates of
`calculate_props`, evaluated against the set of keys present in the
job document. -/
def postsSatisfied (docKeys : List String) : Bool :=
  calculate_props_post_keys.all (fun k => docKeys.contains k)

/-! ### Property-log parsing and the completion labels (lines 61-76,
194-208, 211-223)

A property file on disk is modelled as `Option (List (List (Option ℚ)))`:
`none` for an absent/unreadable file, otherwise one tokenised line per
row, where a token is `none` when its text does not parse as a float
(numpy turns it into `nan`, and `int(nan)` raises). -/

/-- A tokenised text file; `none` models a file that is absent or
cannot be opened. -/
abbrev PrpFile := Option (List (List (Option ℚ)))

/-- Python `int()` applied to a (rational-valued) float: truncation
toward zero. -/
def pyInt (q : ℚ) : ℤ := Int.tdiv q.num (q.den : ℤ)

/-- Model of `np.genfromtxt(..., skip_header=k)`: `none` when the file is
absent; otherwise the remaining lines after dropping the `k` header
lines and ignoring blank lines, provided all rows have the same width
(ragged rows make `genfromtxt` raise, modelled as `none`). -/
def genfromtxt (skip : ℕ) (file : PrpFile) : Option (List (List (Option ℚ))) :=
  match file with
  | none => none
  | some lines =>
    let rows := (lines.drop skip).filter (fun r => !r.isEmpty)
    match rows.head? with
    | none => some []
    | some r0 =>
      if rows.all (fun r => r.length = r0.length) then some rows else none

/-- Shared body of the three completion labels: index the last row
(`thermo_data[-1]`, raising on an empty table), its first column
(`[0]`), convert with `int()` (raising on `nan`) and compare with the
configured step count; any raised exception is caught and the label
returns `False`. -/
def checkLastStep (rows : Option (List (List (Option ℚ)))) (nsteps : ℤ) : Bool :=
  match rows with
  | none => false
  | some rs =>
    match rs.getLast? with
    | none => false
    | some row =>
      match row.head? with
      | none => false
      | some none => false
      | some (some v) => pyInt v == nsteps

/-- The `liqbox_equilibrated` label: parses `liqbox-equil/equil.out.prp`
with `skip_header=3` and compares the last step with
`job.sp.nsteps_liqeq`. -/
def liqbox_equilibrated (file : PrpFile) (nsteps_liqeq : ℤ) : Bool :=
  checkLastStep (genfromtxt 3 file) nsteps_liqeq

/-- The `gemc_equil_complete` label: parses `equil.out.box1.prp` with
`skip_header=2` and compares the last step with `job.sp.nsteps_eq`. -/
def gemc_equil_complete (file : PrpFile) (nsteps_eq : ℤ) : Bool :=
  checkLastStep (genfromtxt 2 file) nsteps_eq

/-- The `gemc_prod_complete` label: parses `prod.out.box1.prp` with
`skip_header=3` and compares the last step with `job.sp.nsteps_prod`. -/
def gemc_prod_complete (file : PrpFile) (nsteps_prod : ℤ) : Bool :=
  checkLastStep (genfromtxt 3 file) nsteps_prod

/-- Spec-side characterisation of a complete stage: the log parses
(with the given header size), its table is nonempty, the first field
of the last row is a number, and `int()` of it equals the configured
step count. -/
def specLogComplete (skip : ℕ) (file : PrpFile) (nsteps : ℤ) : Prop :=
  ∃ rs row v, genfromtxt skip file = some rs ∧ rs.getLast? = some row ∧
    row.head? = some (some v) ∧ pyInt v = nsteps

/-! ### `extract_final_liqbox` (lines 164-191) -/

/-- Model of `tail -n k` on the lines of a file: the trailing `k` lines (the
whole file when it has fewer than `k` lines). -/
def tailLines (k : ℕ) (ls : List String) : List String :=
  ls.drop (ls.length - k)

/-- Result of a successful `extract_final_liqbox` run: the lines
written to `liqbox.xyz` and the value stored under
`job.doc.liqbox_final_dim`. -/
structure ExtractOutput where
  xyzSnapshot : List String
  liqbox_final_dim : ℚ
  deriving DecidableEq

/-- The operation `extract_final_liqbox`: `tail -n (5*N_liq + 2)` of
`liqbox-equil/equil.out.xyz` is written to `liqbox.xyz`, and
`float(box_data[-6][0]) / 10.0` of `liqbox-equil/equil.out.H` is
stored as `liqbox_final_dim`.  The xyz file is a raw list of lines
(`none` if absent, which makes `tail` fail); the `.H` file is a list
of whitespace-split rows whose tokens are `none` when `float()` would
raise.  Every fault (absent file, fewer than 6 rows, empty sixth-last
row, unparsable token) propagates: the result is `none`. -/
def extract_final_liqbox (N_liq : ℕ) (xyzFile : Option (List String))
    (hFile : Option (List (List (Option ℚ)))) : Option ExtractOutput :=
  match xyzFile with
  | none => none
  | some xyzLines =>
    match hFile with
    | none => none
    | some box_data =>
      if h6 : 6 ≤ box_data.length then
        match (box_data.get ⟨box_data.length - 6, by omega⟩).head? with
        | none => none
        | some none => none
        | some (some v) =>
          some ⟨tailLines (5 * N_liq + 2) xyzLines, v / 10.0⟩
      else none

/-! ### The job document store

`job.doc` maps string keys to numeric values; a write prepends and a
read takes the most recent binding. -/

abbrev Doc := List (String × ℝ)

def docInsert (d : Doc) (k : String) (v : ℝ) : Doc := (k, v) :: d

def docLookup : Doc → String → Option ℝ
  | [], _ => none
  | (k, v) :: d, key => if key = k then some v else docLookup d key

/-! ### Box sizing (`calc_vapboxl` lines 23-39, `calc_liqboxl` lines
42-58)

`unyt` resolves the units; numerically, with pressure in bar,
temperature in K and densities in kg/m³, the volumes come out in m³
(`kb` in J/K, 1 bar = 10⁵ Pa) and `in_units(u.nm)` multiplies the
metre-valued cube root by 10⁹. -/

/-- Boltzmann constant `u.kb` in J/K. -/
noncomputable def u_kb : ℝ := 1.380649e-23

/-- Atomic mass unit `u.amu` in kg. -/
noncomputable def u_amu : ℝ := 1.66053906660e-27

/-- Python `round(x, 2)`: rounding to two decimal places.  (Python
rounds exact ties to even; ties never arise from the irrational cube
roots here, and the idealisation rounds them up.) -/
noncomputable def round2 (x : ℝ) : ℝ := (round (100 * x) : ℤ) / 100

/-- The operation `calc_vapboxl`: ideal-gas volume `N_vap * kb * T / P`, cube root,
expressed in nm and rounded, stored under `"vapboxl"`. -/
noncomputable def calc_vapboxl (P T : ℝ) (N_vap : ℕ) (doc : Doc) : Doc :=
  let vol_vap : ℝ := (N_vap : ℝ) * u_kb * T / (P * 1e5)
  let boxl : ℝ := vol_vap ^ ((1 : ℝ) / 3)
  let boxl := round2 (1e9 * boxl)
  docInsert doc "vapboxl" boxl

/-- The operation `calc_liqboxl`: molar density `expt_liq_density / (120.02 amu)`,
volume `N_liq / mol_density`, cube root, expressed in nm and rounded,
stored under `"liqboxl"`. -/
noncomputable def calc_liqboxl (expt_liq_density : ℝ) (N_liq : ℕ) (doc : Doc) : Doc :=
  let molweight : ℝ := 120.02 * u_amu
  let mol_density : ℝ := expt_liq_density / molweight
  let vol_liq : ℝ := (N_liq : ℝ) / mol_density
  let boxl : ℝ := vol_liq ^ ((1 : ℝ) / 3)
  let boxl := round2 (1e9 * boxl)
  docInsert doc "liqboxl" boxl

/-! ### Property aggregation (`calculate_props`, lines 347-417) -/

/-- Model of `df[:, c]`: column `c` (0-based) of a rectangular numeric table. -/
def pyCol (table : List (List ℝ)) (c : ℕ) : List ℝ :=
  table.map (fun row => row.getD c 0)

/-- Model of `np.mean` of a 1-D series. -/
noncomputable def npMean (l : List ℝ) : ℝ := l.sum / (l.length : ℝ)

/-- Model of `np.max` of a 1-D series; raises (`none`) on an empty series. -/
def npMax : List ℝ → Option ℝ
  | [] => none
  | x :: xs => some (xs.foldl max x)

/-- Return triple of the external `block_average` utility: mean
estimates, variance estimates and variance errors, indexed by block
size. -/
structure BlockAvgResult where
  means_est : List ℝ
  vars_est : List ℝ
  vars_err : List ℝ

/-- The `Props` dictionary of `calculate_props` (lines 393-401), in
insertion order, with each series drawn from its source column
(`density_col = 6`, `pressure_col = 3`, `enth_col = 7`,
`n_mols_col = 5`, all 1-based). -/
def propsSeries (box1 box2 : List (List ℝ)) : List (String × List ℝ) :=
  [("liq_density", pyCol box1 5),
   ("vap_density", pyCol box2 5),
   ("Pvap", pyCol box2 2),
   ("liq_enthalpy", pyCol box1 6),
   ("vap_enthalpy", pyCol box2 6),
   ("nmols_liq", pyCol box1 4),
   ("nmols_vap", pyCol box2 4)]

/-- One iteration of the uncertainty loop (lines 403-417): run
`block_average` on the series and store
`np.max(np.sqrt(vars_est))` under `name + "_unc"`; an empty
`vars_est` makes `np.max` raise (`none`). -/
noncomputable def store_unc (ba : List ℝ → BlockAvgResult) (d : Doc)
    (p : String × List ℝ) : Option Doc :=
  (npMax ((ba p.2).vars_est.map Real.sqrt)).map
    (fun u => docInsert d (p.1 ++ "_unc") u)

/-- The operation `calculate_props`: store the seven column means (lines 385-391),
then loop over the `Props` dictionary storing the seven block-average
uncertainties (lines 403-417). -/
noncomputable def calculate_props (ba : List ℝ → BlockAvgResult)
    (box1 box2 : List (List ℝ)) (doc : Doc) : Option Doc :=
  let doc := (propsSeries box1 box2).foldl
    (fun d p => docInsert d p.1 (npMean p.2)) doc
  (propsSeries box1 box2).foldlM (store_unc ba) doc

/-- A concrete stand-in for the external `block_average` utility used
to exercise the aggregation model: every series gets a single block
size with unit estimates. -/
noncomputable def demo_ba : List ℝ → BlockAvgResult := fun _ => ⟨[1], [1], [1]⟩

/-- A one-row, seven-column demonstration property table. -/
noncomputable def demo_box1 : List (List ℝ) := [[1, 1, 1, 1, 1, 1, 1]]

/-- The document produced by `calculate_props` on the demonstration
inputs. -/
noncomputable def demo_props_doc : Doc :=
  (calculate_props demo_ba demo_box1 demo_box1 []).getD []

/-! ## Helper lemmas -/

/-- Closed form of the npt rebalancing. -/
theorem rebalance_npt_eq (m : Moves) (N_liq : ℕ) :
    rebalance_npt m N_liq =
      { prob_translate := m.prob_translate + m.prob_volume - 1.0 / (N_liq : ℚ)
        prob_volume := 1.0 / (N_liq : ℚ)
        prob_swap := m.prob_swap
        prob_other := m.prob_other } := rfl

/-- Closed form of the gemc rebalancing. -/
theorem rebalance_gemc_eq (m : Moves) (N_liq N_vap : ℕ) :
    rebalance_gemc m N_liq N_vap =
      { prob_translate := m.prob_translate + m.prob_volume -
            1.0 / ((N_liq : ℚ) + (N_vap : ℚ)) + m.prob_swap -
            4.0 / 0.05 / ((N_liq : ℚ) + (N_vap : ℚ))
        prob_volume := 1.0 / ((N_liq : ℚ) + (N_vap : ℚ))
        prob_swap := 4.0 / 0.05 / ((N_liq : ℚ) + (N_vap : ℚ))
        prob_other := m.prob_other } := rfl

theorem docLookup_docInsert_self (d : Doc) (k : String) (v : ℝ) :
    docLookup (docInsert d k v) k = some v := by
  simp [docInsert, docLookup]

theorem docLookup_docInsert_ne (d : Doc) (k key : String) (v : ℝ) (h : key ≠ k) :
    docLookup (docInsert d k v) key = docLookup d key := by
  simp [docInsert, docLookup, h]

/-! ## Claim theorems -/

/-- C2: for any molecule counts with `N_liq ≥ 1` and `N_liq + N_vap ≥ 1`,
both the npt rebalancing of `equilibrate_liqbox` and the two-step gemc
rebalancing of `run_gemc` fold all displaced probability mass back into
the translation move, so the total move-probability mass is unchanged;
in particular a total of 1 stays 1 (exactly, in `ℚ`). -/
theorem move_rebalance_preserves_total (m : Moves) (N_liq N_vap : ℕ)
    (h1 : 1 ≤ N_liq) (h2 : 1 ≤ N_liq + N_vap) :
    (rebalance_npt m N_liq).total = m.total ∧
    (rebalance_gemc m N_liq N_vap).total = m.total ∧
    (m.total = 1 →
      (rebalance_npt m N_liq).total = 1 ∧
      (rebalance_gemc m N_liq N_vap).total = 1) := by
  have hnpt : (rebalance_npt m N_liq).total = m.total := by
    simp only [rebalance_npt_eq, Moves.total]
    ring
  have hgemc : (rebalance_gemc m N_liq N_vap).total = m.total := by
    simp only [rebalance_gemc_eq, Moves.total]
    ring
  exact ⟨hnpt, hgemc, fun h => ⟨hnpt.trans h, hgemc.trans h⟩⟩

/-- Witness for C2 at a concrete moves object and `N_liq = 400`,
`N_vap = 100`. -/
theorem move_rebalance_preserves_total_witness :
    (rebalance_npt ⟨0.35, 0.05, 0.1, 0.5⟩ 400).total =
      Moves.total ⟨0.35, 0.05, 0.1, 0.5⟩ ∧
    (rebalance_gemc ⟨0.35, 0.05, 0.1, 0.5⟩ 400 100).total =
      Moves.total ⟨0.35, 0.05, 0.1, 0.5⟩ ∧
    (Moves.total ⟨0.35, 0.05, 0.1, 0.5⟩ = 1 →
      (rebalance_npt ⟨0.35, 0.05, 0.1, 0.5⟩ 400).total = 1 ∧
      (rebalance_gemc ⟨0.35, 0.05, 0.1, 0.5⟩ 400 100).total = 1) :=
  move_rebalance_preserves_total ⟨0.35, 0.05, 0.1, 0.5⟩ 400 100
    (by decide) (by decide)

/-- C10: whenever the total molecule count is below 80 (and at least 1),
the gemc rebalancing sets the swap probability `4.0/0.05/(N_liq+N_vap)`
above 1 and drives the translation probability below 0 for any initial
moves object with non-negative probabilities totalling 1, while the
total mass still equals 1. -/
theorem gemc_rebalance_out_of_range (m : Moves) (N_liq N_vap : ℕ)
    (h1 : 1 ≤ N_liq + N_vap) (h80 : N_liq + N_vap < 80)
    (ht : 0 ≤ m.prob_translate) (hv : 0 ≤ m.prob_volume)
    (hs : 0 ≤ m.prob_swap) (ho : 0 ≤ m.prob_other)
    (htot : m.total = 1) :
    1 < (rebalance_gemc m N_liq N_vap).prob_swap ∧
    (rebalance_gemc m N_liq N_vap).prob_translate < 0 ∧
    (rebalance_gemc m N_liq N_vap).total = 1 := by
  have hN : (1 : ℚ) ≤ (N_liq : ℚ) + (N_vap : ℚ) := by
    have : ((1 : ℕ) : ℚ) ≤ ((N_liq + N_vap : ℕ) : ℚ) := Nat.cast_le.2 h1
    push_cast at this
    linarith
  have hN80 : (N_liq : ℚ) + (N_vap : ℚ) < 80 := by
    have : ((N_liq + N_vap : ℕ) : ℚ) < ((80 : ℕ) : ℚ) := Nat.cast_lt.2 h80
    push_cast at this
    linarith
  have hNpos : (0 : ℚ) < (N_liq : ℚ) + (N_vap : ℚ) := by linarith
  have h4 : (4.0 : ℚ) / 0.05 = 80 := by norm_num
  have hsum : m.prob_translate + m.prob_volume + m.prob_swap ≤ 1 := by
    simp only [Moves.total] at htot
    linarith
  refine ⟨?_, ?_, ?_⟩
  · simp only [rebalance_gemc_eq]
    rw [h4, lt_div_iff₀ hNpos]
    linarith
  · simp only [rebalance_gemc_eq]
    have h81 : 1 < 81 / ((N_liq : ℚ) + (N_vap : ℚ)) := by
      rw [lt_div_iff₀ hNpos]
      linarith
    have hsplit : (1.0 : ℚ) / ((N_liq : ℚ) + (N_vap : ℚ)) +
        4.0 / 0.05 / ((N_liq : ℚ) + (N_vap : ℚ)) =
        81 / ((N_liq : ℚ) + (N_vap : ℚ)) := by
      rw [h4]
      norm_num
      ring
    linarith
  · simp only [rebalance_gemc_eq, Moves.total] at htot ⊢
    linarith

/-- Witness for C10: a normalized moves object with 30 + 10 molecules. -/
theorem gemc_rebalance_out_of_range_witness :
    1 < (rebalance_gemc ⟨0.35, 0.05, 0.1, 0.5⟩ 30 10).prob_swap ∧
    (rebalance_gemc ⟨0.35, 0.05, 0.1, 0.5⟩ 30 10).prob_translate < 0 ∧
    (rebalance_gemc ⟨0.35, 0.05, 0.1, 0.5⟩ 30 10).total = 1 :=
  gemc_rebalance_out_of_range ⟨0.35, 0.05, 0.1, 0.5⟩ 30 10
    (by decide) (by decide) (by norm_num) (by norm_num) (by norm_num)
    (by norm_num) (by norm_num [Moves.total])

/-- C8: the `os.mkdir` handler of `equilibrate_liqbox` swallows an
`EEXIST` failure (and a plain success), and re-raises an `OSError`
with any other errno. -/
theorem handle_mkdir_spec :
    handle_mkdir .success = .ok () ∧
    handle_mkdir (.failure EEXIST) = .ok () ∧
    ∀ e : ℕ, e ≠ EEXIST → handle_mkdir (.failure e) = .error e := by
  refine ⟨rfl, rfl, fun e he => ?_⟩
  simp [handle_mkdir, he]

/-- Witness for C8 at errno 13 (`EACCES`). -/
theorem handle_mkdir_spec_witness :
    (13 ≠ EEXIST) ∧ handle_mkdir (.failure 13) = .error 13 :=
  ⟨by decide, handle_mkdir_spec.2.2 13 (by decide)⟩

/-- C9: the partial charges of the generated force field do not depend
on the job's sigma/epsilon parameters, and the charge of one R-125
molecule (one C1, one C2, two F1, three F2, one H1) is exactly zero. -/
theorem r125_charges_fixed_and_neutral :
    (∀ p q : JobFFParams,
      (generate_r125_nonbonded p).map NonbondedAtom.charge =
        (generate_r125_nonbonded q).map NonbondedAtom.charge) ∧
    (∀ p : JobFFParams, moleculeCharge p = 0) := by
  constructor
  · intro p q
    rfl
  · intro p
    norm_num [moleculeCharge, generate_r125_nonbonded, r125_multiplicities]

/-- C1 counterexample: the conjunction of the `@Project.post`
predicates declared on `calculate_props` does not force all fourteen
derived keys to be present: a document holding exactly the twelve
checked keys satisfies every declared post-predicate while
`nmols_liq_unc` (and `nmols_vap_unc`) is absent. -/
theorem calculate_props_posts_not_all_fourteen :
    ¬ (∀ docKeys : List String, postsSatisfied docKeys = true →
        ∀ k ∈ derived_prop_keys, docKeys.contains k = true) := by
  intro h
  have hmem : "nmols_liq_unc" ∈ derived_prop_keys := by decide
  have := h calculate_props_post_keys (by decide) "nmols_liq_unc" hmem
  exact absurd this (by decide)

/-- C1 (amended): the conjunction of the declared post-predicates of
`calculate_props` holds exactly when the twelve checked derived keys
are present, i.e. every one of the fourteen derived keys except
`nmols_liq_unc` and `nmols_vap_unc`, which the operation writes but no
declared post-predicate checks. -/
theorem calculate_props_posts_iff_twelve :
    ∀ docKeys : List String,
      postsSatisfied docKeys = true ↔
        (∀ k ∈ derived_prop_keys, k ≠ "nmols_liq_unc" → k ≠ "nmols_vap_unc" →
          docKeys.contains k = true) := by
  intro docKeys
  simp only [postsSatisfied, calculate_props_post_keys, derived_prop_keys,
    List.all_eq_true, List.forall_mem_cons, List.not_mem_nil,
    false_implies, forall_const]
  simp +decide

theorem checkLastStep_eq_true_iff (r : Option (List (List (Option ℚ)))) (n : ℤ) :
    checkLastStep r n = true ↔
      ∃ rs row v, r = some rs ∧ rs.getLast? = some row ∧
        row.head? = some (some v) ∧ pyInt v = n := by
  cases r with
  | none => simp [checkLastStep]
  | some rs =>
    cases h1 : rs.getLast? with
    | none => simp [checkLastStep, h1]
    | some row =>
      cases h2 : row.head? with
      | none => simp [checkLastStep, h1, h2]
      | some t =>
        cases t with
        | none => simp [checkLastStep, h1, h2]
        | some v => simp [checkLastStep, h1, h2, beq_iff_eq]

/-- C3: each completion label returns `true` exactly when its property
log parses (present after dropping the stage's header lines, no ragged
rows), its table has a last row whose first field is a number, and
`int()` of that field equals the stage's configured step count; on an
absent file each label returns `false`, and on a truncated or
malformed file the parse characterisation fails, so the label again
returns `false` — the labels are total functions, so no exception
escapes. -/
theorem completion_labels_spec :
    (∀ (file : PrpFile) (n : ℤ),
        liqbox_equilibrated file n = true ↔ specLogComplete 3 file n) ∧
    (∀ (file : PrpFile) (n : ℤ),
        gemc_equil_complete file n = true ↔ specLogComplete 2 file n) ∧
    (∀ (file : PrpFile) (n : ℤ),
        gemc_prod_complete file n = true ↔ specLogComplete 3 file n) ∧
    (∀ n : ℤ, liqbox_equilibrated none n = false ∧
        gemc_equil_complete none n = false ∧
        gemc_prod_complete none n = false) := by
  refine ⟨fun file n => ?_, fun file n => ?_, fun file n => ?_,
    fun n => ⟨rfl, rfl, rfl⟩⟩ <;>
    exact checkLastStep_eq_true_iff _ n

/-- C6: on success, `extract_final_liqbox` snapshots the trailing
`5*N_liq + 2` lines of the trajectory file and stores the first field
of the sixth-from-last line of the box-dimension log divided by 10
under `liqbox_final_dim`; an absent trajectory file, an absent log, a
log with fewer than six lines, an empty sixth-from-last line, or an
unparsable first field all make the operation fail (`none`), i.e. the
fault propagates uncaught. -/
theorem extract_final_liqbox_spec :
    (∀ (N_liq : ℕ) (hFile : Option (List (List (Option ℚ)))),
        extract_final_liqbox N_liq none hFile = none) ∧
    (∀ (N_liq : ℕ) (xyzLines : List String),
        extract_final_liqbox N_liq (some xyzLines) none = none) ∧
    (∀ (N_liq : ℕ) (xyzLines : List String)
        (box_data : List (List (Option ℚ))), box_data.length < 6 →
        extract_final_liqbox N_liq (some xyzLines) (some box_data) = none) ∧
    (∀ (N_liq : ℕ) (xyzLines : List String)
        (box_data : List (List (Option ℚ))), 6 ≤ box_data.length →
        (box_data[box_data.length - 6]?.bind List.head? = none ∨
          box_data[box_data.length - 6]?.bind List.head? = some none) →
        extract_final_liqbox N_liq (some xyzLines) (some box_data) = none) ∧
    (∀ (N_liq : ℕ) (xyzLines : List String)
        (box_data : List (List (Option ℚ))) (v : ℚ), 6 ≤ box_data.length →
        box_data[box_data.length - 6]?.bind List.head? = some (some v) →
        extract_final_liqbox N_liq (some xyzLines) (some box_data) =
          some ⟨tailLines (5 * N_liq + 2) xyzLines, v / 10⟩) := by
  refine ⟨fun N_liq hFile => by cases hFile <;> rfl,
    fun N_liq xyzLines => rfl,
    fun N_liq xyzLines box_data h => ?_,
    fun N_liq xyzLines box_data h6 hbad => ?_,
    fun N_liq xyzLines box_data v h6 hv => ?_⟩
  · simp [extract_final_liqbox, Nat.not_le.2 h]
  · have hlt : box_data.length - 6 < box_data.length := by omega
    rcases hbad with hbad | hbad <;>
      rw [List.getElem?_eq_getElem hlt, Option.some_bind] at hbad <;>
      simp [extract_final_liqbox, h6, hbad]
  · have hlt : box_data.length - 6 < box_data.length := by omega
    rw [List.getElem?_eq_getElem hlt, Option.some_bind] at hv
    simp [extract_final_liqbox, h6, hv]
    try norm_num

/-- Witness for C6: a three-line trajectory and a six-line
box-dimension log whose first line starts with `55`. -/
theorem extract_final_liqbox_spec_witness :
    extract_final_liqbox 1 (some ["a", "b", "c"])
        (some [[some 55], [], [], [], [], []]) =
      some ⟨tailLines (5 * 1 + 2) ["a", "b", "c"], 55 / 10⟩ :=
  extract_final_liqbox_spec.2.2.2.2 1 ["a", "b", "c"]
    [[some 55], [], [], [], [], []] 55 (by decide) (by decide)

theorem round2_nonneg {x : ℝ} (hx : 0 ≤ x) : 0 ≤ round2 x := by
  unfold round2
  apply div_nonneg _ (by norm_num : (0 : ℝ) ≤ 100)
  have h : (0 : ℤ) ≤ round (100 * x) := by
    rw [round_eq]
    apply Int.floor_nonneg.2
    linarith
  exact_mod_cast h

/-- C4: for positive pressure and temperature, `calc_vapboxl` stores
under `"vapboxl"` the two-decimal rounding of the nanometre edge
length of the ideal-gas volume `N_vap * kb * T / P`, and the stored
value is non-negative; as a function of the state point the result is
deterministic. -/
theorem calc_vapboxl_spec (P T : ℝ) (N_vap : ℕ) (doc : Doc)
    (hP : 0 < P) (hT : 0 < T) :
    docLookup (calc_vapboxl P T N_vap doc) "vapboxl" =
      some (round2 (1e9 *
        (((N_vap : ℝ) * u_kb * T / (P * 1e5)) ^ ((1 : ℝ) / 3)))) ∧
    0 ≤ round2 (1e9 *
        (((N_vap : ℝ) * u_kb * T / (P * 1e5)) ^ ((1 : ℝ) / 3))) := by
  constructor
  · simp [calc_vapboxl, docInsert, docLookup]
  · apply round2_nonneg
    have hkb : (0 : ℝ) ≤ u_kb := by unfold u_kb; norm_num
    have hbase : 0 ≤ (N_vap : ℝ) * u_kb * T / (P * 1e5) := by
      apply div_nonneg
      · exact mul_nonneg (mul_nonneg (Nat.cast_nonneg _) hkb) hT.le
      · positivity
    have hr := Real.rpow_nonneg hbase ((1 : ℝ) / 3)
    positivity

/-- Witness for C4 at `P = 1` bar, `T = 300` K, `N_vap = 500`. -/
theorem calc_vapboxl_spec_witness :
    docLookup (calc_vapboxl 1 300 500 []) "vapboxl" =
      some (round2 (1e9 *
        ((((500 : ℕ) : ℝ) * u_kb * 300 / (1 * 1e5)) ^ ((1 : ℝ) / 3)))) ∧
    0 ≤ round2 (1e9 *
        ((((500 : ℕ) : ℝ) * u_kb * 300 / (1 * 1e5)) ^ ((1 : ℝ) / 3))) :=
  calc_vapboxl_spec 1 300 500 [] (by norm_num) (by norm_num)

/-- C5: for a positive target density, `calc_liqboxl` stores under
`"liqboxl"` the two-decimal rounding of the nanometre edge length of
the volume `N_liq * molweight / density` with the fixed molar mass
`120.02` amu (the source computes `N_liq / (density / molweight)`,
which is the same volume). -/
theorem calc_liqboxl_spec (expt_liq_density : ℝ) (N_liq : ℕ) (doc : Doc)
    (hd : 0 < expt_liq_density) :
    docLookup (calc_liqboxl expt_liq_density N_liq doc) "liqboxl" =
      some (round2 (1e9 *
        (((N_liq : ℝ) * (120.02 * u_amu) / expt_liq_density)
          ^ ((1 : ℝ) / 3)))) ∧
    0 ≤ round2 (1e9 *
        (((N_liq : ℝ) * (120.02 * u_amu) / expt_liq_density)
          ^ ((1 : ℝ) / 3))) := by
  constructor
  · simp only [calc_liqboxl, docInsert, docLookup, if_pos]
    rw [div_div_eq_mul_div]
  · apply round2_nonneg
    have hamu : (0 : ℝ) ≤ u_amu := by unfold u_amu; norm_num
    have hbase : 0 ≤ (N_liq : ℝ) * (120.02 * u_amu) / expt_liq_density := by
      apply div_nonneg _ hd.le
      have : (0 : ℝ) ≤ 120.02 * u_amu := by positivity
      exact mul_nonneg (Nat.cast_nonneg _) this
    have hr := Real.rpow_nonneg hbase ((1 : ℝ) / 3)
    positivity

/-- Witness for C5 at density `1200` kg/m³ and `N_liq = 300`. -/
theorem calc_liqboxl_spec_witness :
    docLookup (calc_liqboxl 1200 300 []) "liqboxl" =
      some (round2 (1e9 *
        ((((300 : ℕ) : ℝ) * (120.02 * u_amu) / 1200) ^ ((1 : ℝ) / 3)))) ∧
    0 ≤ round2 (1e9 *
        ((((300 : ℕ) : ℝ) * (120.02 * u_amu) / 1200) ^ ((1 : ℝ) / 3))) :=
  calc_liqboxl_spec 1200 300 [] (by norm_num)

theorem foldlM_store_unc_untouched (ba : List ℝ → BlockAvgResult) :
    ∀ (ps : List (String × List ℝ)) (d d1 : Doc),
      ps.foldlM (store_unc ba) d = some d1 →
      ∀ key : String, (∀ q ∈ ps, q.1 ++ "_unc" ≠ key) →
      docLookup d1 key = docLookup d key := by
  intro ps
  induction ps with
  | nil =>
    intro d d1 h key _
    simp only [List.foldlM_nil] at h
    cases h
    rfl
  | cons p rest ih =>
    intro d d1 h key hk
    rw [List.foldlM_cons] at h
    cases hs : store_unc ba d p with
    | none => rw [hs] at h; simp at h
    | some d2 =>
      rw [hs] at h
      simp only [Option.bind_eq_bind, Option.some_bind] at h
      have h2 : docLookup d2 key = docLookup d key := by
        rcases Option.map_eq_some'.1 hs with ⟨u, hu, rfl⟩
        exact docLookup_docInsert_ne d (p.1 ++ "_unc") key u
          (hk p (List.mem_cons_self p rest)).symm
      exact (ih d2 d1 h key fun q hq => hk q (List.mem_cons_of_mem p hq)).trans h2

theorem foldlM_store_unc_lookup (ba : List ℝ → BlockAvgResult) :
    ∀ ps : List (String × List ℝ),
      (ps.map (fun p => p.1 ++ "_unc")).Pairwise (· ≠ ·) →
      ∀ (d d1 : Doc), ps.foldlM (store_unc ba) d = some d1 →
      ∀ p ∈ ps, docLookup d1 (p.1 ++ "_unc") =
        npMax ((ba p.2).vars_est.map Real.sqrt) := by
  intro ps
  induction ps with
  | nil => intro _ d d1 _ p hp; exact absurd hp (List.not_mem_nil p)
  | cons q rest ih =>
    intro hdist d d1 h p hp
    rw [List.foldlM_cons] at h
    cases hs : store_unc ba d q with
    | none => rw [hs] at h; simp at h
    | some d2 =>
      rw [hs] at h
      simp only [Option.bind_eq_bind, Option.some_bind] at h
      rcases Option.map_eq_some'.1 hs with ⟨u, hu, hd2⟩
      rcases List.mem_cons.1 hp with rfl | hmem
      · have huntouched :
            docLookup d1 (p.1 ++ "_unc") = docLookup d2 (p.1 ++ "_unc") := by
          apply foldlM_store_unc_untouched ba rest d2 d1 h
          intro r hr
          exact ((List.pairwise_cons.1 hdist).1 (r.1 ++ "_unc")
            (List.mem_map_of_mem _ hr)).symm
        rw [huntouched, ← hd2, docLookup_docInsert_self]
        exact hu.symm
      · exact ih (List.pairwise_cons.1 hdist).2 d2 d1 h p hmem

/-- C7: whenever `calculate_props` succeeds, the value it stores under
`name ++ "_unc"` for each of the seven aggregated quantities is
`np.max (np.sqrt vars_est)`: the maximum across block sizes of the
square root of the variance estimates that the block-averaging utility
returns for that quantity's production series. -/
theorem calculate_props_unc_spec (ba : List ℝ → BlockAvgResult)
    (box1 box2 : List (List ℝ)) (doc dout : Doc)
    (h : calculate_props ba box1 box2 doc = some dout) :
    ∀ p ∈ propsSeries box1 box2,
      docLookup dout (p.1 ++ "_unc") =
        npMax ((ba p.2).vars_est.map Real.sqrt) := by
  have hdist : ((propsSeries box1 box2).map
      (fun p => p.1 ++ "_unc")).Pairwise (· ≠ ·) := by
    simp only [propsSeries, List.map_cons, List.map_nil]
    decide
  exact foldlM_store_unc_lookup ba (propsSeries box1 box2) hdist _ dout h

/-- Witness for C7 on the demonstration inputs: the stored
`liq_density_unc` equals the maximum of the square roots of the
variance estimates. -/
theorem calculate_props_unc_spec_witness :
    docLookup demo_props_doc ("liq_density" ++ "_unc") =
      npMax ((demo_ba (pyCol demo_box1 5)).vars_est.map Real.sqrt) :=
  calculate_props_unc_spec demo_ba demo_box1 demo_box1 [] demo_props_doc rfl
    ("liq_density", pyCol demo_box1 5) (by simp [propsSeries])

/-- Witness for the amended C1 at the concrete key set holding all
fourteen derived keys. -/
theorem calculate_props_posts_iff_twelve_witness :
    postsSatisfied derived_prop_keys = true ↔
      (∀ k ∈ derived_prop_keys, k ≠ "nmols_liq_unc" → k ≠ "nmols_vap_unc" →
        derived_prop_keys.contains k = true) :=
  calculate_props_posts_iff_twelve derived_prop_keys

/-- Witness for C3 at a concrete two-row log whose last step is 5000. -/
theorem completion_labels_spec_witness :
    liqbox_equilibrated
        (some [[], [], [], [some 10, some 2], [some 5000, some 3]]) 5000 =
        true ↔
      specLogComplete 3
        (some [[], [], [], [some 10, some 2], [some 5000, some 3]]) 5000 :=
  completion_labels_spec.1
    (some [[], [], [], [some 10, some 2], [some 5000, some 3]]) 5000

/-- Witness for C9 at two concrete parameter sets. -/
theorem r125_charges_fixed_and_neutral_witness :
    (generate_r125_nonbonded ⟨1, 1, 1, 1, 1, 1, 1, 1, 1, 1⟩).map
        NonbondedAtom.charge =
      (generate_r125_nonbonded ⟨2, 2, 2, 2, 2, 2, 2, 2, 2, 2⟩).map
        NonbondedAtom.charge ∧
    moleculeCharge ⟨1, 1, 1, 1, 1, 1, 1, 1, 1, 1⟩ = 0 :=
  ⟨r125_charges_fixed_and_neutral.1 ⟨1, 1, 1, 1, 1, 1, 1, 1, 1, 1⟩
      ⟨2, 2, 2, 2, 2, 2, 2, 2, 2, 2⟩,
    r125_charges_fixed_and_neutral.2 ⟨1, 1, 1, 1, 1, 1, 1, 1, 1, 1⟩⟩

end R125Vle
